import Mathlib

/-!
Shallow embedding of the dagger workflow engine core (`dagger/tasks/task.py`).

Tasks are records; the workflow instance owns a task map keyed by id (ids are
modelled as `Nat`, topic names as `Nat`).  The per-kind `start` / `execute` /
`on_complete` / `notify` methods are modelled by a single fuel-indexed
interpreter `run` dispatching on an instruction type `Call`; Python's dynamic
dispatch (method overrides) is reproduced by matching on the task's `kind`.
`int(time.time())` is modelled by a constant `now` threaded through a cascade.
Calls into the external store / broker collaborators
(`dagger.service.services.Dagger.app...`) are not code of this repository;
they are modelled as trace events with no effect on the workflow, matching
their contracts (the store's `get_monitoring_task` is modelled as returning
nothing and `delete_workflow_on_complete` as unset).  User-supplied `execute`
bodies are modelled by their effect on the task's status
(`TaskKind.executor` / `TaskKind.trigger` carry that effect), user `evaluate`
by the id it returns, and user `on_message` by the boolean it returns.
Python exceptions (the undefined `get_taskt` attribute in `DecisionTask.start`,
`NotImplementedError`) are modelled as error outcomes; exhausted fuel is the
distinguished outcome `PyErr.outOfFuel`.
-/

namespace Dagger

/-- Status enum of `TaskStatusEnum` (task.py lines 33-40). -/
inductive TaskStatusEnum
  | NOT_STARTED
  | EXECUTING
  | COMPLETED
  | FAILURE
  | SKIPPED
  | SUBMITTED
  | STOPPED
deriving DecidableEq, Repr

/-- The terminal status list `TERMINAL_STATUSES` (task.py lines 43-48). -/
def TERMINAL_STATUSES : List TaskStatusEnum :=
  [.COMPLETED, .SKIPPED, .FAILURE, .STOPPED]

/-- Task type enum `TaskType` (task.py lines 51-55). -/
inductive TaskType
  | ROOT
  | LEAF
  | SUB_DAG
  | PARALLEL_COMPOSITE
deriving DecidableEq, Repr

/-- Join operator enum `TaskOperator` (task.py lines 896-898). -/
inductive TaskOperator
  | ATLEAST_ONE
  | JOIN_ALL
deriving DecidableEq, Repr

/-- The concrete class of a task, carrying the user-supplied behaviour the
class leaves abstract: `executor`/`trigger` carry the status the user
`execute` body leaves the task in (`none` = the body does not touch the
status), `decision` carries what the user `evaluate` returns, `sensor`
carries what the user `on_message` returns. -/
inductive TaskKind
  | executor (execSets : Option TaskStatusEnum)
  | trigger (execSets : Option TaskStatusEnum)
  | decision (evaluatesTo : Option Nat)
  | sensor (onMessageCompletes : Bool)
  | nonLeaf
  | parallelComposite
deriving DecidableEq, Repr

/-- The common task record `ITask` (task.py lines 63-81) together with the
kind-specific attributes `time_to_execute` (TriggerTask, line 336),
`match_only_one` (SensorTask, line 628), `topic` (KafkaListenerTask,
line 846) and `parallel_child_task_list` / `operator_type`
(ParallelCompositeTask, lines 907-909; the Python `Set` is modelled as a
list in iteration order). -/
structure Task where
  id : Nat
  time_submitted : Int := 0
  time_completed : Int := 0
  task_type : TaskType := .LEAF
  parent_id : Option Nat := none
  status : TaskStatusEnum := .NOT_STARTED
  next_dags : List Nat := []
  root_dag : Option Nat := none
  allow_skip_to : Bool := false
  reprocess_on_message : Bool := false
  match_only_one : Bool := false
  time_to_execute : Option Int := none
  parallel_child_task_list : List Nat := []
  operator_type : TaskOperator := .JOIN_ALL
  topic : Option Nat := none
  kind : TaskKind
deriving DecidableEq, Repr

/-- A workflow instance `ITemplateDAGInstance` (task.py lines 997-1004): the
root's own task record plus the owned task map, the runtime-parameter
blackboard and the sensor-to-correlatable map (attribute names and values
modelled as `Nat`). -/
structure Workflow where
  selfTask : Task
  tasks : List (Nat × Task)
  runtime_parameters : List (Nat × Nat) := []
  sensor_tasks_to_correletable_map : List (Nat × Nat × Option Nat) := []
deriving DecidableEq, Repr

/-- `ITemplateDAGInstance.get_task` (task.py lines 1009-1012). -/
def Workflow.get_task (w : Workflow) (id : Nat) : Option Task :=
  if id = w.selfTask.id then some w.selfTask
  else Option.map Prod.snd (w.tasks.find? (fun p => p.1 = id))

/-- Write a task back into the workflow.  Python mutates the single live
object the id refers to; writing through every location holding that id
models the aliasing. -/
def Workflow.set_task (w : Workflow) (t : Task) : Workflow :=
  { w with
    selfTask := if w.selfTask.id = t.id then t else w.selfTask
    tasks := w.tasks.map (fun p => if p.1 = t.id then (p.1, t) else p) }

/-- Observable steps of a cascade: entries into the core methods, plus the
calls into the external store collaborator (`_update_instance`,
`process_trigger_task_complete`) and the logged missing-task and
root-cleanup paths. -/
inductive Ev
  | startCalled (id : Nat)
  | onCompleteEntered (id : Nat) (status : TaskStatusEnum) (iterate : Bool)
  | notifyCalled (id : Nat) (status : TaskStatusEnum)
  | executeCalled (id : Nat)
  | onMessageCalled (id : Nat)
  | updateInstance
  | processTriggerComplete (id : Nat)
  | missingTask (id : Option Nat)
  | updateCorrelatableKey (id : Nat)
  | rootCleanup
deriving DecidableEq, Repr

/-- A Python exception escaping the modelled code, or exhausted fuel. -/
inductive PyErr
  | attributeErrorGetTaskt
  | notImplemented
  | outOfFuel
deriving DecidableEq, Repr

/-- Result of a cascade: the workflow as mutated so far, the trace, and the
exception propagating out of it, if any. -/
structure Out where
  w : Workflow
  evs : List Ev
  err : Option PyErr := none
deriving DecidableEq, Repr

/-- Sequencing: run the continuation unless an exception is propagating. -/
def Out.andThen (o : Out) (f : Workflow → Out) : Out :=
  match o.err with
  | some _ => o
  | none =>
    let o2 := f o.w
    ⟨o2.w, o.evs ++ o2.evs, o2.err⟩

/-- Prefix events onto a result. -/
def Out.withEvents (pre : List Ev) (o : Out) : Out :=
  ⟨o.w, pre ++ o.evs, o.err⟩

/-- The child scan of `ParallelCompositeTask.notify` (task.py lines 959-977):
walks `parallel_child_task_list` accumulating the `atleast_one` /
`all_in_terminal` flags, breaking early exactly as the source does; a child
id that does not resolve is logged and leaves both flags untouched. -/
def parallelScan (w : Workflow) (op : TaskOperator) :
    List Nat → Bool → Bool → Bool × Bool
  | [], a, al => (a, al)
  | c :: rest, a, al =>
    match w.get_task c with
    | some d =>
      if d.status ∈ TERMINAL_STATUSES then
        if op = .ATLEAST_ONE then (true, al)
        else parallelScan w op rest true al
      else
        if op = .JOIN_ALL then (a, false)
        else parallelScan w op rest a false
    | none => parallelScan w op rest a al

/-- Root cleanup (task.py lines 257-284).  Every step of the sweep acts
through the external store (correlation-entry removal, the
`get_monitoring_task` lookup modelled as finding none, deletion gated by
the externally configured `delete_workflow_on_complete` modelled as unset)
or only logs, so the workflow itself is unchanged. -/
def rootCleanup (w : Workflow) : Out :=
  ⟨w, [.rootCleanup], none⟩

/-- Effect of the kind-specific `execute` body: user bodies
(ExecutorTask / TriggerTask subclasses) are modelled by the status they
leave; `INonLeafNodeTask.execute` (lines 886-893) and
`ParallelCompositeTask.execute` (lines 946-953) set EXECUTING and
`time_submitted`; `DecisionTask.execute` and `SensorTask.execute` raise
NotImplementedError. -/
def runExecuteEffect (now : Int) (w : Workflow) (t : Task) : Out :=
  match t.kind with
  | .executor execSets =>
    match execSets with
    | some s => ⟨w.set_task { t with status := s }, [.executeCalled t.id], none⟩
    | none => ⟨w, [.executeCalled t.id], none⟩
  | .trigger execSets =>
    match execSets with
    | some s => ⟨w.set_task { t with status := s }, [.executeCalled t.id], none⟩
    | none => ⟨w, [.executeCalled t.id], none⟩
  | .nonLeaf =>
    ⟨w.set_task { t with status := .EXECUTING, time_submitted := now },
      [.executeCalled t.id], none⟩
  | .parallelComposite =>
    ⟨w.set_task { t with status := .EXECUTING, time_submitted := now },
      [.executeCalled t.id], none⟩
  | _ => ⟨w, [], some .notImplemented⟩

/-- Instruction set of the interpreter: one constructor per method body (or
loop inside one) that can re-enter the engine. -/
inductive Call
  | start (tid : Nat) (ignore_status : Bool)
  | execStartBody (tid : Nat) (ignore_status : Bool)
  | onComplete (tid : Nat) (status : TaskStatusEnum) (iterate : Bool)
  | itaskOnComplete (tid : Nat) (status : TaskStatusEnum) (iterate : Bool)
  | nextLoop (sid : Nat) (status : TaskStatusEnum) (nds : List Nat) (submitted : Bool)
  | notify (tid : Nat) (status : TaskStatusEnum)
  | parStartLoop (cids : List Nat)
deriving Repr

/-- The engine interpreter.  `run fuel now w c` executes the method body `c`
names on workflow `w`; every re-entry (successor `start`, parent `notify`,
loop iteration) consumes one unit of fuel, and exhaustion is the outcome
`PyErr.outOfFuel` (Python would recurse instead).

Dispatch, following the source:
  * `start`: `ExecutorTask.start` (lines 288-314), `TriggerTask.start`
    (lines 338-355), `DecisionTask.start` (lines 497-525, including the
    undefined `get_taskt` attribute raising at the first successor the
    chosen id differs from), `SensorTask.start` (lines 630-644),
    `INonLeafNodeTask.start` (lines 858-884),
    `ParallelCompositeTask.start` (lines 915-944).
  * `onComplete`: the virtual `on_complete`; `TriggerTask.on_complete`
    (lines 357-366) tells the store to drop the trigger and forwards to
    `ITask.on_complete` WITHOUT the status argument, so the default
    COMPLETED applies; every other modelled kind forwards unchanged.
  * `itaskOnComplete` + `nextLoop`: `ITask.on_complete` (lines 206-284).
  * `notify`: `ITask.notify` (lines 113-118) or
    `ParallelCompositeTask.notify` (lines 955-983). -/
def run : Nat → Int → Workflow → Call → Out
  | 0, _, w, _ => ⟨w, [], some .outOfFuel⟩
  | fuel + 1, now, w, c =>
    match c with
    | .start tid ignore =>
      match w.get_task tid with
      | none => ⟨w, [.startCalled tid], none⟩
      | some t =>
        Out.withEvents [.startCalled tid] <|
          match t.kind with
          | .executor _ => run fuel now w (.execStartBody tid ignore)
          | .trigger _ =>
            let w1 :=
              if t.status = .NOT_STARTED then
                w.set_task { t with status := .EXECUTING, time_submitted := now }
              else w
            match t.time_to_execute with
            | none => run fuel now w1 (.execStartBody tid true)
            | some tte =>
              if now ≥ tte then run fuel now w1 (.execStartBody tid true)
              else ⟨w1, [], none⟩
          | .decision chosen =>
            if t.status ∈ [TaskStatusEnum.COMPLETED, .SKIPPED] then
              run fuel now w (.onComplete tid .COMPLETED true)
            else if t.status = .NOT_STARTED then
              let w1 := w.set_task { t with status := .EXECUTING, time_submitted := now }
              if t.next_dags.any (fun n => some n != chosen) then
                ⟨w1, [], some .attributeErrorGetTaskt⟩
              else
                Out.withEvents [.updateInstance]
                  (run fuel now w1 (.onComplete tid .COMPLETED true))
            else
              Out.withEvents [.updateInstance]
                (run fuel now w (.onComplete tid .COMPLETED true))
          | .sensor _ =>
            if t.status ∈ [TaskStatusEnum.COMPLETED, .SKIPPED] then
              run fuel now w (.onComplete tid t.status true)
            else if t.status = .NOT_STARTED then
              ⟨w.set_task { t with status := .EXECUTING, time_submitted := now },
                [.updateInstance], none⟩
            else ⟨w, [], none⟩
          | .nonLeaf =>
            if t.status ∈ [TaskStatusEnum.COMPLETED, .SKIPPED] then
              run fuel now w (.onComplete tid t.status true)
            else
              let step :=
                if t.status = .NOT_STARTED ∨ t.status = .SUBMITTED then
                  Out.withEvents [.updateInstance] (runExecuteEffect now w t)
                else ⟨w, [], none⟩
              step.andThen fun w1 =>
                match t.root_dag with
                | some rid =>
                  match w1.get_task rid with
                  | some _ => run fuel now w1 (.start rid false)
                  | none => ⟨w1, [.missingTask (some rid)], none⟩
                | none => ⟨w1, [.missingTask none], none⟩
          | .parallelComposite =>
            if t.status ∈ TERMINAL_STATUSES then
              run fuel now w (.onComplete tid t.status true)
            else
              let step :=
                if t.status = .NOT_STARTED ∨ t.status = .SUBMITTED then
                  Out.withEvents [.updateInstance]
                    (runExecuteEffect now
                      (w.set_task { t with status := .EXECUTING, time_submitted := now })
                      { t with status := .EXECUTING, time_submitted := now })
                else ⟨w, [], none⟩
              step.andThen fun w1 =>
                run fuel now w1 (.parStartLoop t.parallel_child_task_list)
    | .execStartBody tid ignore =>
      match w.get_task tid with
      | none => ⟨w, [], none⟩
      | some t =>
        if t.status ∈ [TaskStatusEnum.COMPLETED, .SKIPPED] then
          run fuel now w (.onComplete tid t.status true)
        else
          let pre :=
            if ignore ∨ t.status = .NOT_STARTED then
              let t1 := { t with status := TaskStatusEnum.EXECUTING, time_submitted := now }
              Out.withEvents []
                ((runExecuteEffect now (w.set_task t1) t1).andThen fun w2 =>
                  ⟨w2, [.updateInstance], none⟩)
            else ⟨w, [], none⟩
          pre.andThen fun w1 =>
            match w1.get_task tid with
            | none => ⟨w1, [], none⟩
            | some t2 =>
              if t2.status = .FAILURE then
                run fuel now w1 (.onComplete tid .FAILURE true)
              else
                run fuel now w1 (.onComplete tid .COMPLETED true)
    | .onComplete tid status iterate =>
      match w.get_task tid with
      | none => ⟨w, [], none⟩
      | some t =>
        match t.kind with
        | .trigger _ =>
          Out.withEvents [.processTriggerComplete tid]
            (run fuel now w (.itaskOnComplete tid .COMPLETED iterate))
        | _ => run fuel now w (.itaskOnComplete tid status iterate)
    | .itaskOnComplete tid status iterate =>
      match w.get_task tid with
      | none => ⟨w, [], none⟩
      | some t =>
        let upd :=
          if t.status ≠ status then
            let tc := if t.time_completed > 0 then t.time_completed else now
            Out.mk (w.set_task { t with status := status, time_completed := tc })
              [.updateInstance] none
          else ⟨w, [], none⟩
        Out.withEvents [.onCompleteEntered tid status iterate] <|
          if iterate = false then upd
          else upd.andThen fun w1 => run fuel now w1 (.nextLoop tid status t.next_dags false)
    | .nextLoop sid status nds submitted =>
      match nds with
      | n :: rest =>
        match w.get_task n with
        | none =>
          Out.withEvents [.missingTask (some n)]
            (run fuel now w (.nextLoop sid status rest submitted))
        | some inst =>
          if inst.status = .SKIPPED then
            run fuel now w (.nextLoop sid status rest true)
          else
            run fuel now w (.start n false)
      | [] =>
        match w.get_task sid with
        | none => ⟨w, [], none⟩
        | some t =>
          match t.parent_id with
          | some pid =>
            if submitted = false then
              match w.get_task pid with
              | some parent =>
                run fuel now (w.set_task { parent with time_completed := t.time_completed })
                  (.notify pid status)
              | none => ⟨w, [.missingTask (some pid)], none⟩
            else if t.task_type = .ROOT then rootCleanup w else ⟨w, [], none⟩
          | none =>
            if t.task_type = .ROOT then rootCleanup w else ⟨w, [], none⟩
    | .notify tid status =>
      match w.get_task tid with
      | none => ⟨w, [], none⟩
      | some t =>
        Out.withEvents [.notifyCalled tid status] <|
          match t.kind with
          | .parallelComposite =>
            if t.status ≠ status then
              let flags := parallelScan w t.operator_type t.parallel_child_task_list false true
              if (t.operator_type = .JOIN_ALL ∧ flags.2 = true) ∨
                  (t.operator_type = .ATLEAST_ONE ∧ flags.1 = true) then
                run fuel now w (.onComplete tid status true)
              else ⟨w, [], none⟩
            else ⟨w, [], none⟩
          | _ =>
            if t.status ≠ status then
              run fuel now w (.onComplete tid status true)
            else ⟨w, [], none⟩
    | .parStartLoop cids =>
      match cids with
      | [] => ⟨w, [], none⟩
      | cid :: rest =>
        match w.get_task cid with
        | some _ =>
          (run fuel now w (.start cid false)).andThen fun w1 =>
            run fuel now w1 (.parStartLoop rest)
        | none =>
          Out.withEvents [.missingTask (some cid)]
            (run fuel now w (.parStartLoop rest))

/-- Runtime-parameter lookup, `dict.get(key, None)`. -/
def rpGet (rp : List (Nat × Nat)) (k : Nat) : Option Nat :=
  (rp.find? (fun p => p.1 = k)).map Prod.snd

/-- The externally visible effect of `SensorTask._update_correletable_key`
(task.py lines 646-666): when the workflow and its runtime parameters are
truthy and the sensor is live, the store's correlation index is upserted;
otherwise only an error is logged. -/
def updateCorreletableKey (w : Workflow) (t : Task) : List Ev :=
  if w.runtime_parameters ≠ [] then
    if t.status ∈ [TaskStatusEnum.NOT_STARTED, .EXECUTING] then
      [.updateCorrelatableKey t.id]
    else []
  else []

/-- Loop body of `ITemplateDAGInstance._update_global_runtime_parameters`
(task.py lines 1014-1030): walk the sensor-to-correlatable map, and for each
live sensor whose watched attribute's global value changed, record the new
value and re-register the sensor's correlation entry. -/
def updateGlobalLoop (w : Workflow) :
    List (Nat × Nat × Option Nat) → List (Nat × Nat × Option Nat) × List Ev
  | [] => ([], [])
  | (sid, attr, existing) :: rest =>
    let newv := rpGet w.runtime_parameters attr
    let tail := updateGlobalLoop w rest
    match w.get_task sid with
    | some st =>
      if st.status ∈ [TaskStatusEnum.NOT_STARTED, .EXECUTING] ∧ newv ≠ existing then
        ((sid, attr, newv) :: tail.1, updateCorreletableKey w st ++ tail.2)
      else ((sid, attr, existing) :: tail.1, tail.2)
    | none => ((sid, attr, existing) :: tail.1, tail.2)

/-- `ITemplateDAGInstance._update_global_runtime_parameters`. -/
def updateGlobalRuntimeParameters (w : Workflow) : Workflow × List Ev :=
  let r := updateGlobalLoop w w.sensor_tasks_to_correletable_map
  ({ w with sensor_tasks_to_correletable_map := r.1 }, r.2)

/-- What the user-supplied `on_message` returns for a sensor; any other kind
raises NotImplementedError. -/
def onMessageResult (t : Task) : Option Bool :=
  match t.kind with
  | .sensor b => some b
  | _ => none

/-- `ITask.get_remaining_tasks` (task.py lines 163-204): depth-first prefix
of the DAG from `next_dag_id` (entering sub-DAGs through `root_dag` first),
appending into `tasks` and stopping once `end_task_id` has been appended.
Fuel bounds the recursion depth; a `none` id or an unresolvable id is
logged and contributes nothing. -/
def get_remaining_tasks (fuel : Nat) (w : Workflow) (next_dag_id : Option Nat)
    (tasks : List Task) (end_task_id : Nat) : List Task :=
  match fuel with
  | 0 => tasks
  | fuel + 1 =>
    match next_dag_id with
    | none => tasks
    | some nid =>
      match w.get_task nid with
      | none => tasks
      | some ti =>
        let tasks1 :=
          match ti.root_dag with
          | some rd => get_remaining_tasks fuel w (some rd) tasks end_task_id
          | none => tasks
        if ti.id = end_task_id then tasks1 ++ [ti]
        else if tasks1.getLast?.map Task.id = some end_task_id then tasks1
        else
          ti.next_dags.foldl
            (fun acc nd => get_remaining_tasks fuel w (some nd) acc end_task_id)
            (tasks1 ++ [ti])

/-- The durable store's view of the live workflow instances, keyed by id. -/
abbrev Store := List (Nat × Workflow)

/-- Load a workflow instance from the store. -/
def Store.getWf (st : Store) (wfid : Nat) : Option Workflow :=
  (st.find? (fun p => p.1 = wfid)).map Prod.snd

/-- Persist a mutated workflow instance: Python mutates the loaded instance
in place, so later yields of the same id observe the mutation. -/
def Store.setWf (st : Store) (wfid : Nat) (w : Workflow) : Store :=
  st.map (fun p => if p.1 = wfid then (wfid, w) else p)

/-- A `KafkaAgent` (task.py lines 699-707): the topic it listens on and the
`match_only_one` flag of its own listener task (`self.__task`), read through
`getattr` at line 811. -/
structure Agent where
  topicName : Nat
  matchOnlyOne : Bool
deriving DecidableEq, Repr

/-- Result of event dispatch: the store as mutated so far, the trace, the
cumulative `processed_task` flag, whether the inner yield loop was left by
`break`, and an exhausted-fuel outcome if one occurred. -/
structure DOut where
  store : Store
  evs : List Ev
  processed : Bool := false
  broke : Bool := false
  err : Option PyErr := none
deriving DecidableEq, Repr

/-- The skip loop of the `allow_skip_to` branch (task.py lines 755-768):
each previous task still NOT_STARTED or EXECUTING is completed as SKIPPED
without iteration.  The loop runs over the live tasks the collected
snapshots alias, so statuses are re-read from the workflow. -/
def skipPrevLoop (fuel : Nat) (now : Int) : Workflow → List Nat → Out
  | w, [] => ⟨w, [], none⟩
  | w, pid :: rest =>
    match w.get_task pid with
    | some p =>
      if p.status ∈ [TaskStatusEnum.NOT_STARTED, .EXECUTING] then
        (run fuel now w (.onComplete pid .SKIPPED false)).andThen fun w1 =>
          skipPrevLoop fuel now w1 rest
      else skipPrevLoop fuel now w rest
    | none => skipPrevLoop fuel now w rest

/-- The delivery-policy part of `KafkaAgent.process_event_helper` for one
resolved task (task.py lines 770-815), after any `allow_skip_to` pre-step:
COMPLETED tasks are reprocessed or restarted (and the loop continues);
tasks neither EXECUTING nor SKIPPED-with-`allow_skip_to` are logged and
dropped; otherwise the event is delivered through `on_message`, runtime
parameters are refreshed, completion fires `on_complete`, and
`match_only_one` on the agent's listener breaks the yield loop.  Returns
the outcome together with this pair's `processed_task` contribution and
whether `break` was reached. -/
def processResolved (fuel : Nat) (now : Int) (ag : Agent) (w : Workflow)
    (tid : Nat) : Out × Bool × Bool :=
  match w.get_task tid with
  | none => (⟨w, [], none⟩, false, false)
  | some t =>
    if t.status = .COMPLETED then
      if t.reprocess_on_message then
        match onMessageResult t with
        | some _ =>
          let r := updateGlobalRuntimeParameters w
          (⟨r.1, .onMessageCalled tid :: r.2, none⟩, true, false)
        | none => (⟨w, [], some .notImplemented⟩, false, false)
      else
        let o := run fuel now w (.start tid false)
        (o, o.err.isNone, false)
    else if t.status ≠ .EXECUTING ∧ (t.status ≠ .SKIPPED ∨ t.allow_skip_to = false) then
      (⟨w, [], none⟩, false, false)
    else
      match onMessageResult t with
      | none => (⟨w, [], some .notImplemented⟩, false, false)
      | some completed =>
        let r := updateGlobalRuntimeParameters w
        let o3 :=
          if completed then run fuel now r.1 (.onComplete tid .COMPLETED true)
          else ⟨r.1, [], none⟩
        match o3.err with
        | some e => (⟨o3.w, .onMessageCalled tid :: (r.2 ++ o3.evs), some e⟩, false, false)
        | none => (⟨o3.w, .onMessageCalled tid :: (r.2 ++ o3.evs), none⟩, true, ag.matchOnlyOne)

/-- The per-pair `try`/`except` (task.py lines 726 and 816-820): a Python
exception inside the body is logged and the yield loop continues with the
mutations made so far; exhausted fuel aborts the model. -/
def pairCatch (st : Store) (wfid : Nat) (o : Out) (processed broke : Bool) : DOut :=
  match o.err with
  | some .outOfFuel => ⟨Store.setWf st wfid o.w, o.evs, processed, false, some .outOfFuel⟩
  | some _ => ⟨Store.setWf st wfid o.w, o.evs, processed, false, none⟩
  | none => ⟨Store.setWf st wfid o.w, o.evs, processed, broke, none⟩

/-- Processing of one `(workflow, task)` pair yielded by the correlation
lookup (task.py lines 723-820): resolve both, require the task's bound
topic to match the agent's, run the `allow_skip_to` pre-step for a
NOT_STARTED task that allows it, then apply the delivery policy. -/
def processPair (fuel : Nat) (now : Int) (ag : Agent) (st : Store)
    (wfid tid : Nat) : DOut :=
  match Store.getWf st wfid with
  | none => ⟨st, [], false, false, none⟩
  | some w0 =>
    match w0.get_task tid with
    | none => ⟨st, [], false, false, none⟩
    | some t0 =>
      match t0.topic with
      | none => ⟨st, [], false, false, none⟩
      | some tn =>
        if tn = ag.topicName then
          if t0.status = .NOT_STARTED ∧ t0.allow_skip_to then
            let previous := get_remaining_tasks fuel w0 w0.selfTask.root_dag [] tid
            let wA := w0.set_task { t0 with status := .EXECUTING, time_submitted := now }
            let o1 := skipPrevLoop fuel now wA (previous.dropLast.map Task.id)
            match o1.err with
            | some _ => pairCatch st wfid o1 true false
            | none =>
              let r := processResolved fuel now ag o1.w tid
              pairCatch st wfid ⟨r.1.w, o1.evs ++ r.1.evs, r.1.err⟩ true r.2.2
          else
            let r := processResolved fuel now ag w0 tid
            pairCatch st wfid r.1 r.2.1 r.2.2
        else ⟨st, [], false, false, none⟩

/-- The inner `async for` over the pairs one correlation lookup yields
(task.py line 723), with `break` leaving the loop. -/
def pairsLoop (fuel : Nat) (now : Int) (ag : Agent) :
    Store → Bool → List (Nat × Nat) → DOut
  | st, pr, [] => ⟨st, [], pr, false, none⟩
  | st, pr, (wfid, tid) :: rest =>
    let d := processPair fuel now ag st wfid tid
    match d.err with
    | some e => ⟨d.store, d.evs, pr || d.processed, false, some e⟩
    | none =>
      if d.broke then ⟨d.store, d.evs, pr || d.processed, true, none⟩
      else
        let d2 := pairsLoop fuel now ag d.store (pr || d.processed) rest
        ⟨d2.store, d.evs ++ d2.evs, d2.processed, d2.broke, d2.err⟩

/-- The outer `for mapping in mappings` loop (task.py line 713); a `break`
in the inner yield loop does not leave this one. -/
def mappingsLoop (fuel : Nat) (now : Int) (ag : Agent) :
    Store → Bool → List (List (Nat × Nat)) → DOut
  | st, pr, [] => ⟨st, [], pr, false, none⟩
  | st, pr, ys :: rest =>
    let d := pairsLoop fuel now ag st pr ys
    match d.err with
    | some _ => d
    | none =>
      let d2 := mappingsLoop fuel now ag d.store d.processed rest
      ⟨d2.store, d.evs ++ d2.evs, d2.processed, d2.broke, d2.err⟩

/-- `KafkaAgent.process_event_helper` (task.py lines 708-829) over the
already-resolved correlation lookups: `yields` holds, per candidate mapping
of the payload, the `(workflow id, task id)` pairs the store's
`_get_tasks_by_correlatable_key` yields for it. -/
def process_event_helper (fuel : Nat) (now : Int) (ag : Agent) (st : Store)
    (yields : List (List (Nat × Nat))) : DOut :=
  mappingsLoop fuel now ag st false yields

/-- A child id of a parallel composite that resolves to a task in a terminal
status. -/
def childTerminalP (w : Workflow) (c : Nat) : Prop :=
  ∃ d, w.get_task c = some d ∧ d.status ∈ TERMINAL_STATUSES

instance (w : Workflow) (c : Nat) : Decidable (childTerminalP w c) := by
  unfold childTerminalP
  match w.get_task c with
  | some d => exact decidable_of_iff (d.status ∈ TERMINAL_STATUSES) (by simp)
  | none => exact isFalse (by simp)

/-- Events that witness the claim of an `on_complete` invocation on a given
task. -/
def isOnCompleteEnteredFor (tid : Nat) : Ev → Bool
  | .onCompleteEntered id _ _ => id == tid
  | _ => false

/-- How many times a trace enters `on_complete` of a given task. -/
def countOnComplete (tid : Nat) (evs : List Ev) : Nat :=
  (evs.filter (isOnCompleteEnteredFor tid)).length

section Lemmas

/-- A key-preserving map commutes with a key-based `find?`. -/
theorem find?_fst_map (l : List (Nat × Task)) (g : Nat × Task → Nat × Task)
    (hg : ∀ p, (g p).1 = p.1) (id : Nat) :
    (l.map g).find? (fun p => p.1 = id) = (l.find? (fun p => p.1 = id)).map g := by
  induction l with
  | nil => rfl
  | cons p rest ih =>
    by_cases h : p.1 = id
    · simp [List.find?, hg, h]
    · simp [List.find?, hg, h, ih]

/-- Writing back a task preserves the root record's id. -/
theorem set_task_selfTask_id (w : Workflow) (t : Task) :
    (w.set_task t).selfTask.id = w.selfTask.id := by
  unfold Workflow.set_task
  by_cases h : w.selfTask.id = t.id <;> simp [h]

/-- Reading back the task just written: the write lands everywhere its id is
stored, so an id that resolved before resolves to the new record. -/
theorem get_task_set_task_same (w : Workflow) (t : Task)
    (h : (w.get_task t.id).isSome) :
    (w.set_task t).get_task t.id = some t := by
  unfold Workflow.get_task Workflow.set_task at *
  by_cases hs : t.id = w.selfTask.id
  · have h1 : w.selfTask.id = t.id := hs.symm
    simp [h1]
  · have hs' : ¬ w.selfTask.id = t.id := fun hc => hs hc.symm
    simp only [hs, if_false, hs', ite_false] at h ⊢
    rw [find?_fst_map _ _ (by intro p; by_cases hp : p.1 = t.id <;> simp [hp])]
    match hf : w.tasks.find? (fun p => p.1 = t.id) with
    | some q =>
      have := List.find?_some hf
      simp at this
      simp [hf, this]
    | none => simp [hf] at h

/-- Reading any other id is unaffected by a write-back. -/
theorem get_task_set_task_other (w : Workflow) (t : Task) (id : Nat)
    (hne : id ≠ t.id) : (w.set_task t).get_task id = w.get_task id := by
  unfold Workflow.get_task Workflow.set_task
  have hself : (if w.selfTask.id = t.id then t else w.selfTask).id = w.selfTask.id := by
    by_cases h : w.selfTask.id = t.id <;> simp [h]
  by_cases hs : id = w.selfTask.id
  · have hval : (if w.selfTask.id = t.id then t else w.selfTask) = w.selfTask := by
      by_cases h : w.selfTask.id = t.id
      · exact absurd (hs.trans h) hne
      · simp [h]
    simp [hself, hval, hs]
  · simp only [hself, hs, if_false]
    rw [find?_fst_map _ _ (by intro p; by_cases hp : p.1 = t.id <;> simp [hp])]
    match hf : w.tasks.find? (fun p => p.1 = id) with
    | some q =>
      have hq := List.find?_some hf
      simp at hq
      have hqne : ¬ q.1 = t.id := by rw [hq]; exact hne
      simp [hf, hqne]
    | none => simp [hf]

/-- Prefixed events compose. -/
theorem withEvents_withEvents (a b : List Ev) (o : Out) :
    Out.withEvents a (Out.withEvents b o) = Out.withEvents (a ++ b) o := by
  simp [Out.withEvents]

/-- Conditional form of `get_task_set_task_same` for simp: reading an id
that resolved before, right after writing a task carrying that id, yields
the written task. -/
theorem get_task_set_task_self (w : Workflow) (t : Task) (id : Nat)
    (hid : id = t.id) (h : (w.get_task id).isSome = true) :
    (w.set_task t).get_task id = some t := by
  subst hid
  exact get_task_set_task_same w t h

end Lemmas

/-- C10: `ITemplateDAGInstance.get_task` is total and never raises: it
returns the workflow's own record for the workflow's id, otherwise the task
stored under the id, otherwise `none` (so the root is resolvable and absent
ids yield `None`).  Totality is the function's type; the first conjunct
resolves the root, the second characterises exactly when a lookup yields
nothing, the third says every hit is the root or a stored binding. -/
theorem c10_get_task_total (w : Workflow) (id : Nat) :
    w.get_task w.selfTask.id = some w.selfTask ∧
    (w.get_task id = none ↔ id ≠ w.selfTask.id ∧ ∀ p ∈ w.tasks, p.1 ≠ id) ∧
    (∀ t, w.get_task id = some t → t = w.selfTask ∨ (id, t) ∈ w.tasks) := by
  refine ⟨by simp [Workflow.get_task], ?_, ?_⟩
  · unfold Workflow.get_task
    by_cases hs : id = w.selfTask.id
    · simp [hs]
    · simp [hs, List.find?_eq_none]
  · intro t h
    unfold Workflow.get_task at h
    by_cases hs : id = w.selfTask.id
    · simp only [hs, if_true, Option.some.injEq] at h
      exact Or.inl h.symm
    · simp only [hs, if_false] at h
      match hf : w.tasks.find? (fun p => p.1 = id) with
      | some q =>
        rw [hf] at h
        simp only [Option.map_some', Option.some.injEq] at h
        have hq := List.find?_some hf
        simp only [decide_eq_true_eq] at hq
        have hm := List.mem_of_find?_eq_some hf
        right
        rw [← h, ← hq]
        exact hm
      | none => rw [hf] at h; simp at h

section C2

/-- Decision task `D` in NOT_STARTED whose user `evaluate` picks `Y` (id 3)
out of `next_dags = [X (id 2), Y (id 3)]`. -/
def c2D : Task := { id := 1, next_dags := [2, 3], kind := .decision (some 3) }

/-- Branch `X`, the successor `evaluate` did not pick. -/
def c2X : Task := { id := 2, kind := .executor (some .COMPLETED) }

/-- Branch `Y`, the successor `evaluate` picked. -/
def c2Y : Task := { id := 3, kind := .executor (some .COMPLETED) }

/-- Workflow holding the decision scenario of the claim. -/
def c2w : Workflow :=
  { selfTask := { id := 0, task_type := .ROOT, kind := .nonLeaf },
    tasks := [(1, c2D), (2, c2X), (3, c2Y)] }

/-- C2 (code bug): `DecisionTask.start` never marks the unchosen successor
SKIPPED, because line 514 calls `workflow_instance.get_taskt` — an attribute
no class defines (`ITemplateDAGInstance` defines `get_task`) — so the first
loop iteration with `next_task_id != task_to_execute` raises AttributeError;
`X` keeps status NOT_STARTED and the cascade never reaches `Y`. -/
theorem c2_decision_start_raises :
    (run 20 100 c2w (.start 1 false)).err = some .attributeErrorGetTaskt ∧
    ((run 20 100 c2w (.start 1 false)).w.get_task 2).map Task.status =
      some .NOT_STARTED ∧
    ((run 20 100 c2w (.start 1 false)).w.get_task 3).map Task.status =
      some .NOT_STARTED := by decide

end C2

section C3

/-- A TriggerTask whose user `execute` body sets FAILURE; no
`time_to_execute`, so `start` proceeds immediately. -/
def c3t : Task := { id := 1, kind := .trigger (some .FAILURE) }

/-- Workflow holding the failing trigger. -/
def c3w : Workflow :=
  { selfTask := { id := 0, task_type := .ROOT, kind := .nonLeaf },
    tasks := [(1, c3t)] }

/-- C3 (code bug): for a TriggerTask whose `execute` sets FAILURE,
`ExecutorTask.start` does invoke `on_complete` with FAILURE, but
`TriggerTask.on_complete` (line 366) forwards to `super().on_complete`
without the `status` argument, so `ITask.on_complete` runs with its default
COMPLETED and the task's final status is COMPLETED, not the terminal
FAILURE the claim requires. -/
theorem c3_trigger_failure_becomes_completed :
    c3t.kind = .trigger (some .FAILURE) ∧
    ((run 20 100 c3w (.start 1 false)).w.get_task 1).map Task.status =
      some .COMPLETED ∧
    Ev.onCompleteEntered 1 .COMPLETED true ∈ (run 20 100 c3w (.start 1 false)).evs := by
  decide

end C3

section C1

/-- Task `t` (id 1): an executor with parent id 2 and the single successor
id 3. -/
def c1t : Task :=
  { id := 1, parent_id := some 2, next_dags := [3], status := .EXECUTING,
    kind := .executor none }

/-- The parent sub-DAG (id 2), still EXECUTING with `time_completed = 0`. -/
def c1p : Task := { id := 2, task_type := .SUB_DAG, status := .EXECUTING, kind := .nonLeaf }

/-- The successor (id 3), already SKIPPED. -/
def c1s : Task := { id := 3, status := .SKIPPED, kind := .executor none }

/-- Workflow for the skipped-successor scenario. -/
def c1w : Workflow :=
  { selfTask := { id := 0, task_type := .ROOT, kind := .nonLeaf },
    tasks := [(1, c1t), (2, c1p), (3, c1s)] }

/-- C1 counterexample: task 1 has a parent and its only listed successor
exists with status SKIPPED, yet `on_complete(COMPLETED, iterate=true)`
neither notifies the parent nor copies `time_completed` to it — the loop
sets `next_task_submitted = True` for a successor that resolves even when
it is SKIPPED (line 239), so the upward propagation of line 246 is
suppressed; the claim requires the parent to be notified here. -/
theorem c1_counterexample :
    (c1w.get_task 3).map Task.status = some .SKIPPED ∧
    c1t.parent_id = some 2 ∧
    (run 20 100 c1w (.onComplete 1 .COMPLETED true)).evs =
      [.onCompleteEntered 1 .COMPLETED true, .updateInstance] ∧
    ((run 20 100 c1w (.onComplete 1 .COMPLETED true)).w.get_task 2).map
      Task.time_completed = some 0 := by decide

end C1

section C4

/-- A STOPPED executor task with no successors and no parent. -/
def c4t : Task := { id := 1, status := .STOPPED, kind := .executor none }

/-- Workflow holding the stopped executor. -/
def c4w : Workflow :=
  { selfTask := { id := 0, task_type := .ROOT, kind := .nonLeaf },
    tasks := [(1, c4t)] }

/-- C4 counterexample: STOPPED is in the terminal set, yet replaying
`ExecutorTask.start` on a STOPPED task falls through to the final
`on_complete()` call with the default COMPLETED status (line 314) and
overwrites the status — terminal monotonicity fails. -/
theorem c4_counterexample :
    c4t.status ∈ TERMINAL_STATUSES ∧
    ((run 20 100 c4w (.start 1 false)).w.get_task 1).map Task.status =
      some .COMPLETED := by decide

end C4

section C5

/-- An executor whose user `execute` body sets FAILURE, with
`time_completed = 0`. -/
def c5t : Task := { id := 1, kind := .executor (some .FAILURE) }

/-- Workflow holding the failing executor. -/
def c5w : Workflow :=
  { selfTask := { id := 0, task_type := .ROOT, kind := .nonLeaf },
    tasks := [(1, c5t)] }

/-- C5 counterexample: when `execute` itself sets FAILURE, the subsequent
`on_complete(FAILURE)` sees `self.status == status` and skips the
status-change block (line 217) that stamps `time_completed`, so the task
ends in the terminal status FAILURE with `time_completed = 0`, violating
the invariant at `now = 100 > 0`. -/
theorem c5_counterexample :
    ((run 20 100 c5w (.start 1 false)).w.get_task 1).map Task.status =
      some .FAILURE ∧
    TaskStatusEnum.FAILURE ∈ TERMINAL_STATUSES ∧
    ((run 20 100 c5w (.start 1 false)).w.get_task 1).map Task.time_completed =
      some 0 := by decide

end C5

section C6

/-- Parallel composite parent, already COMPLETED, JOIN_ALL, one child. -/
def c6P : Task :=
  { id := 1, status := .COMPLETED, task_type := .PARALLEL_COMPOSITE,
    parallel_child_task_list := [2], operator_type := .JOIN_ALL,
    kind := .parallelComposite }

/-- The single child, COMPLETED (terminal). -/
def c6c : Task := { id := 2, status := .COMPLETED, kind := .executor none }

/-- Workflow for the notify-guard scenario. -/
def c6w : Workflow :=
  { selfTask := { id := 0, task_type := .ROOT, kind := .nonLeaf },
    tasks := [(1, c6P), (2, c6c)] }

/-- C6 counterexample: under JOIN_ALL with every child terminal the claim's
iff requires `notify(status)` to complete the parent, but `notify` first
requires `self.status.code != status.code` (line 961); with the parent
already COMPLETED and an incoming COMPLETED the scan is never reached and
`on_complete` is not invoked. -/
theorem c6_counterexample :
    (c6w.get_task 2).map Task.status = some .COMPLETED ∧
    c6P.operator_type = .JOIN_ALL ∧
    (run 20 100 c6w (.notify 1 .COMPLETED)).evs = [.notifyCalled 1 .COMPLETED] ∧
    (run 20 100 c6w (.notify 1 .COMPLETED)).w = c6w := by decide

end C6

section C7

/-- A NOT_STARTED trigger task whose `time_to_execute` is still in the
future at `now = 50`. -/
def c7t : Task :=
  { id := 1, time_to_execute := some 100, kind := .trigger none }

/-- Workflow holding the early trigger. -/
def c7w : Workflow :=
  { selfTask := { id := 0, task_type := .ROOT, kind := .nonLeaf },
    tasks := [(1, c7t)] }

/-- C7 counterexample: at `now = 50 < time_to_execute = 100` the claim
requires `start` to change nothing, but `TriggerTask.start` flips a
NOT_STARTED task to EXECUTING and stamps `time_submitted = now`
(lines 342-346) before it checks the clock. -/
theorem c7_counterexample :
    (50 : Int) < 100 ∧ c7t.status = .NOT_STARTED ∧
    ((run 20 50 c7w (.start 1 false)).w.get_task 1).map Task.status =
      some .EXECUTING ∧
    ((run 20 50 c7w (.start 1 false)).w.get_task 1).map Task.time_submitted =
      some 50 := by decide

end C7

section C8

/-- The listener task of the scenario: COMPLETED, bound to topic 7, no
reprocessing, with successor id 3 — its restart replays the cascade. -/
def c8t1 : Task :=
  { id := 1, status := .COMPLETED, topic := some 7, next_dags := [3],
    kind := .sensor false }

/-- A second live sensor on the same topic, EXECUTING. -/
def c8t2 : Task := { id := 2, status := .EXECUTING, topic := some 7, kind := .sensor false }

/-- The NOT_STARTED successor of task 1; the replay of task 1 starts it. -/
def c8t3 : Task := { id := 3, kind := .sensor false }

/-- Workflow with the three sensors. -/
def c8w : Workflow :=
  { selfTask := { id := 0, task_type := .ROOT, kind := .nonLeaf },
    tasks := [(1, c8t1), (2, c8t2), (3, c8t3)] }

/-- Store holding the one workflow. -/
def c8st : Store := [(0, c8w)]

/-- The agent, whose listener task has `match_only_one` set. -/
def c8ag : Agent := { topicName := 7, matchOnlyOne := true }

/-- C8 counterexample: the correlation lookup yields pairs (0,1) then (0,2)
and `match_only_one` is set.  Processing the first pair restarts the
COMPLETED task 1, whose cascade starts task 3 (NOT_STARTED to EXECUTING: a
status change), and `processed_task` is set — yet the COMPLETED branch ends
in `continue` (line 785), skipping the `break`, so the event is still
delivered to the second pair (its `on_message` runs), contradicting the
claim that dispatch stops after the first processed task. -/
theorem c8_counterexample :
    c8ag.matchOnlyOne = true ∧
    (((processPair 30 100 c8ag c8st 0 1).store.getWf 0).bind
        (fun w => w.get_task 3)).map Task.status = some .EXECUTING ∧
    (processPair 30 100 c8ag c8st 0 1).processed = true ∧
    Ev.onMessageCalled 2 ∈ (process_event_helper 30 100 c8ag c8st [[(0, 1), (0, 2)]]).evs := by
  decide

end C8

section IsolatedOnComplete

/-- The record the status-change block of `ITask.on_complete`
(task.py lines 217-225) writes: the new status, and `time_completed`
stamped with `now` unless the application already set it. -/
def completedTask (t : Task) (status : TaskStatusEnum) (now : Int) : Task :=
  { t with
    status := status
    time_completed := if t.time_completed > 0 then t.time_completed else now }

/-- The whole of `ITask.on_complete` for a task with no successors, no
parent and a non-ROOT type: the status-change block runs (or not) and
nothing else happens. -/
theorem itaskOnComplete_isolated (f : Nat) (now : Int) (w : Workflow) (t : Task)
    (status : TaskStatusEnum)
    (ht : w.get_task t.id = some t)
    (hnd : t.next_dags = []) (hpar : t.parent_id = none) (hty : t.task_type ≠ .ROOT) :
    run (f + 2) now w (.itaskOnComplete t.id status true) =
      if t.status = status then
        ⟨w, [.onCompleteEntered t.id status true], none⟩
      else
        ⟨w.set_task (completedTask t status now),
          [.onCompleteEntered t.id status true, .updateInstance], none⟩ := by
  have e1 : f + 2 = (f + 1) + 1 := rfl
  rw [e1]
  by_cases h : t.status = status
  · rw [if_pos h]
    simp [run, ht, hnd, h, hpar, hty, Out.andThen, Out.withEvents]
  · rw [if_neg h]
    simp [run, ht, hnd, h, completedTask, hpar, hty, Out.andThen, Out.withEvents,
      get_task_set_task_self]

end IsolatedOnComplete

section C4Amended

/-- C4 (amended): for a task whose status is COMPLETED or SKIPPED, with no
successors and no parent, an executor or sensor start replay and an
`on_complete` re-entry with the existing status leave the workflow
unchanged; the protection does not extend to STOPPED (or FAILURE), whose
start replay overwrites the status with COMPLETED (see the
counterexample). -/
theorem c4_terminal_replay_amended (f : Nat) (now : Int) (w : Workflow) (t : Task)
    (e : Option TaskStatusEnum) (b : Bool)
    (ht : w.get_task t.id = some t)
    (hk : t.kind = .executor e ∨ t.kind = .sensor b)
    (hst : t.status = .COMPLETED ∨ t.status = .SKIPPED)
    (hnd : t.next_dags = []) (hpar : t.parent_id = none) (hty : t.task_type ≠ .ROOT) :
    (run (f + 5) now w (.start t.id false)).w = w ∧
    (run (f + 5) now w (.onComplete t.id t.status true)).w = w := by
  have hmem : t.status ∈ [TaskStatusEnum.COMPLETED, .SKIPPED] := by
    rcases hst with h | h <;> simp [h]
  constructor <;> rcases hk with hk | hk <;>
    simp [run, ht, hk, hmem, hnd, hpar, hty, Out.andThen, Out.withEvents]

/-- A COMPLETED executor task with no successors and no parent, for the
amended claim's witness. -/
def c4r : Task := { id := 1, status := .COMPLETED, kind := .executor none }

/-- Workflow holding the completed executor. -/
def c4rw : Workflow :=
  { selfTask := { id := 0, task_type := .ROOT, kind := .nonLeaf },
    tasks := [(1, c4r)] }

/-- Witness for C4 (amended) at a concrete COMPLETED executor. -/
theorem c4_terminal_replay_amended_witness :
    (run (0 + 5) 100 c4rw (.start c4r.id false)).w = c4rw ∧
    (run (0 + 5) 100 c4rw (.onComplete c4r.id c4r.status true)).w = c4rw :=
  c4_terminal_replay_amended 0 100 c4rw c4r none false (by decide) (Or.inl rfl)
    (Or.inl rfl) rfl rfl (by decide)

end C4Amended

section C5Amended

/-- C5 (amended): when `ITask.on_complete` runs with a status different from
the task's current one and `now > 0`, the status-change block stamps
`time_completed` with a positive value (the pre-set value if positive, else
`now`), so the terminal status then implies `time_completed > 0`; the
invariant fails only on the path where `execute` already set the terminal
status and `on_complete` sees no change (the counterexample). -/
theorem c5_time_completed_amended (f : Nat) (now : Int) (w : Workflow) (t : Task)
    (status : TaskStatusEnum) (e : Option TaskStatusEnum)
    (ht : w.get_task t.id = some t) (hk : t.kind = .executor e)
    (hch : t.status ≠ status) (hnow : 0 < now)
    (hnd : t.next_dags = []) (hpar : t.parent_id = none) (hty : t.task_type ≠ .ROOT) :
    ((run (f + 3) now w (.onComplete t.id status true)).w.get_task t.id).map
        Task.time_completed =
      some (if t.time_completed > 0 then t.time_completed else now) ∧
    ((run (f + 3) now w (.onComplete t.id status true)).w.get_task t.id).map
        Task.status = some status ∧
    (0 : Int) < (if t.time_completed > 0 then t.time_completed else now) := by
  have s1 : ∀ g, run (g + 1) now w (.onComplete t.id status true) =
      run g now w (.itaskOnComplete t.id status true) := by
    intro g
    simp only [run, ht, hk]
  have e1 : f + 3 = (f + 2) + 1 := rfl
  rw [e1, s1 (f + 2),
    itaskOnComplete_isolated f now w t status ht hnd hpar hty, if_neg hch]
  refine ⟨by simp [completedTask, get_task_set_task_self, ht],
    by simp [completedTask, get_task_set_task_self, ht], ?_⟩
  by_cases hp : t.time_completed > 0
  · simp only [if_pos hp]
    exact hp
  · simp only [if_neg hp]
    exact hnow

/-- An EXECUTING executor for the amended claim's witness. -/
def c5at : Task := { id := 1, status := .EXECUTING, kind := .executor none }

/-- Workflow holding the executing executor. -/
def c5aw : Workflow :=
  { selfTask := { id := 0, task_type := .ROOT, kind := .nonLeaf },
    tasks := [(1, c5at)] }

/-- Witness for C5 (amended): completing the EXECUTING task with COMPLETED
at `now = 100` stamps `time_completed = 100 > 0`. -/
theorem c5_time_completed_amended_witness :
    ((run (0 + 3) 100 c5aw (.onComplete c5at.id .COMPLETED true)).w.get_task
        c5at.id).map Task.time_completed =
      some (if c5at.time_completed > 0 then c5at.time_completed else 100) ∧
    ((run (0 + 3) 100 c5aw (.onComplete c5at.id .COMPLETED true)).w.get_task
        c5at.id).map Task.status = some .COMPLETED ∧
    (0 : Int) < (if c5at.time_completed > 0 then c5at.time_completed else 100) :=
  c5_time_completed_amended 0 100 c5aw c5at .COMPLETED none (by decide) rfl
    (by decide) (by decide) rfl rfl (by decide)

end C5Amended

section C7Amended

/-- C7 (amended): when `now < time_to_execute`, `TriggerTask.start` runs no
`execute` and triggers no completion, but it is not a full no-op: a
NOT_STARTED task is flipped to EXECUTING with `time_submitted = now`
(lines 342-346 precede the clock check); a task in any other status is left
unchanged. -/
theorem c7_trigger_gate_amended (f : Nat) (now tte : Int) (w : Workflow) (t : Task)
    (e : Option TaskStatusEnum)
    (ht : w.get_task t.id = some t) (hk : t.kind = .trigger e)
    (htte : t.time_to_execute = some tte) (hlt : now < tte) :
    run (f + 1) now w (.start t.id false) =
      ⟨(if t.status = .NOT_STARTED then
          w.set_task { t with status := .EXECUTING, time_submitted := now } else w),
        [.startCalled t.id], none⟩ := by
  simp only [run, ht, hk, htte]
  rw [if_neg (not_le.mpr hlt)]
  simp [Out.withEvents]

/-- Witness for C7 (amended) at the concrete early trigger of the
counterexample's shape: only the NOT_STARTED-to-EXECUTING flip happens. -/
theorem c7_trigger_gate_amended_witness :
    run (0 + 1) 50 c7w (.start c7t.id false) =
      ⟨(if c7t.status = .NOT_STARTED then
          c7w.set_task { c7t with status := .EXECUTING, time_submitted := 50 } else c7w),
        [.startCalled c7t.id], none⟩ :=
  c7_trigger_gate_amended 0 50 100 c7w c7t none (by decide) rfl rfl (by decide)

end C7Amended

section ScanLemmas

/-- When every listed child is resolvable and terminal, the scan ends with
`all_in_terminal` still true and `atleast_one` set exactly when the list is
non-empty (or it was already set). -/
theorem parallelScan_all_terminal (w : Workflow) (op : TaskOperator) (cs : List Nat)
    (a al : Bool) (h : ∀ c ∈ cs, childTerminalP w c) :
    parallelScan w op cs a al = (a || !cs.isEmpty, al) := by
  induction cs generalizing a with
  | nil => simp [parallelScan]
  | cons c rest ih =>
    obtain ⟨d, hd, hterm⟩ := h c (by simp)
    have hrest : ∀ x ∈ rest, childTerminalP w x := fun x hx => h x (by simp [hx])
    by_cases hop : op = .ATLEAST_ONE
    · simp [parallelScan, hd, hterm, hop]
    · simp [parallelScan, hd, hterm, hop, ih true hrest]

/-- Under JOIN_ALL with every child resolvable, the scan's `all_in_terminal`
flag is true iff it started true and every child is terminal. -/
theorem parallelScan_snd_join_all (w : Workflow) (cs : List Nat) (a al : Bool)
    (hres : ∀ c ∈ cs, (w.get_task c).isSome) :
    ((parallelScan w .JOIN_ALL cs a al).2 = true ↔
      (al = true ∧ ∀ c ∈ cs, childTerminalP w c)) := by
  induction cs generalizing a al with
  | nil => simp [parallelScan]
  | cons c rest ih =>
    obtain ⟨d, hd⟩ := Option.isSome_iff_exists.mp (hres c (by simp))
    have hrest : ∀ x ∈ rest, (w.get_task x).isSome :=
      fun x hx => hres x (by simp [hx])
    by_cases hterm : d.status ∈ TERMINAL_STATUSES
    · have hc : childTerminalP w c := ⟨d, hd, hterm⟩
      simp [parallelScan, hd, hterm, ih true al hrest, hc]
    · have hc : ¬ childTerminalP w c := by
        rintro ⟨d', hd', ht'⟩
        rw [hd] at hd'
        cases hd'
        exact hterm ht'
      simp [parallelScan, hd, hterm, hc]

/-- Under ATLEAST_ONE with every child resolvable, the scan's `atleast_one`
flag is true iff it started true or some child is terminal. -/
theorem parallelScan_fst_atleast_one (w : Workflow) (cs : List Nat) (a al : Bool)
    (hres : ∀ c ∈ cs, (w.get_task c).isSome) :
    ((parallelScan w .ATLEAST_ONE cs a al).1 = true ↔
      (a = true ∨ ∃ c ∈ cs, childTerminalP w c)) := by
  induction cs generalizing a al with
  | nil => simp [parallelScan]
  | cons c rest ih =>
    obtain ⟨d, hd⟩ := Option.isSome_iff_exists.mp (hres c (by simp))
    have hrest : ∀ x ∈ rest, (w.get_task x).isSome :=
      fun x hx => hres x (by simp [hx])
    by_cases hterm : d.status ∈ TERMINAL_STATUSES
    · have hc : childTerminalP w c := ⟨d, hd, hterm⟩
      simp [parallelScan, hd, hterm, hc]
    · have hc : ¬ childTerminalP w c := by
        rintro ⟨d', hd', ht'⟩
        rw [hd] at hd'
        cases hd'
        exact hterm ht'
      simp [parallelScan, hd, hterm, ih a false hrest, hc]

end ScanLemmas

section C6Amended

/-- C6 (amended): when the parent's current status differs from the incoming
status (the guard of line 961) and every listed child resolves,
`ParallelCompositeTask.notify(status)` invokes the parent's `on_complete`
iff under JOIN_ALL every child of `parallel_child_task_list` is terminal,
and under ATLEAST_ONE at least one is; the propagated status is the
incoming one (it is the status in the `on_complete` entry).  When the
parent's status equals the incoming status, `notify` does nothing (the
counterexample). -/
theorem c6_join_semantics_amended (f : Nat) (now : Int) (w : Workflow) (P : Task)
    (s : TaskStatusEnum)
    (hP : w.get_task P.id = some P) (hk : P.kind = .parallelComposite)
    (hch : P.status ≠ s)
    (hres : ∀ c ∈ P.parallel_child_task_list, (w.get_task c).isSome) :
    (Ev.onCompleteEntered P.id s true ∈ (run (f + 3) now w (.notify P.id s)).evs ↔
      ((P.operator_type = .JOIN_ALL ∧
          ∀ c ∈ P.parallel_child_task_list, childTerminalP w c) ∨
        (P.operator_type = .ATLEAST_ONE ∧
          ∃ c ∈ P.parallel_child_task_list, childTerminalP w c))) := by
  by_cases hcond :
      (P.operator_type = .JOIN_ALL ∧
        (parallelScan w P.operator_type P.parallel_child_task_list false true).2 = true) ∨
      (P.operator_type = .ATLEAST_ONE ∧
        (parallelScan w P.operator_type P.parallel_child_task_list false true).1 = true)
  · have s1 : ∀ g, run (g + 1) now w (.notify P.id s) =
        Out.withEvents [.notifyCalled P.id s] (run g now w (.onComplete P.id s true)) := by
      intro g
      simp only [run, hP, hk]
      rw [if_pos hch, if_pos hcond]
    have s2 : ∀ g, run (g + 1) now w (.onComplete P.id s true) =
        run g now w (.itaskOnComplete P.id s true) := by
      intro g
      simp only [run, hP, hk]
    have s3 : Ev.onCompleteEntered P.id s true ∈
        (run (f + 1) now w (.itaskOnComplete P.id s true)).evs := by
      simp only [run, hP, Out.withEvents]
      simp
    have e1 : f + 3 = (f + 2) + 1 := rfl
    have e2 : f + 2 = (f + 1) + 1 := rfl
    have hmem : Ev.onCompleteEntered P.id s true ∈ (run (f + 3) now w (.notify P.id s)).evs := by
      rw [e1, s1 (f + 2), e2, s2 (f + 1)]
      simp only [Out.withEvents, List.mem_append]
      exact Or.inr s3
    refine iff_of_true hmem ?_
    rcases hcond with ⟨hop, hflag⟩ | ⟨hop, hflag⟩
    · rw [hop] at hflag
      exact Or.inl ⟨hop, ((parallelScan_snd_join_all w _ false true hres).mp hflag).2⟩
    · rw [hop] at hflag
      rcases (parallelScan_fst_atleast_one w _ false true hres).mp hflag with h | h
      · cases h
      · exact Or.inr ⟨hop, h⟩
  · have s1 : run ((f + 2) + 1) now w (.notify P.id s) =
        ⟨w, [.notifyCalled P.id s], none⟩ := by
      simp only [run, hP, hk]
      rw [if_pos hch, if_neg hcond]
      rfl
    have e1 : f + 3 = (f + 2) + 1 := rfl
    rw [e1, s1]
    refine iff_of_false (by simp) ?_
    rintro (⟨hop, hall⟩ | ⟨hop, hex⟩)
    · exact hcond (Or.inl ⟨hop, by
        rw [hop]
        exact (parallelScan_snd_join_all w _ false true hres).mpr ⟨rfl, hall⟩⟩)
    · exact hcond (Or.inr ⟨hop, by
        rw [hop]
        exact (parallelScan_fst_atleast_one w _ false true hres).mpr (Or.inr hex)⟩)

/-- Parent for the C6 witness: EXECUTING, JOIN_ALL, two children. -/
def c6aP : Task :=
  { id := 1, status := .EXECUTING, task_type := .PARALLEL_COMPOSITE,
    parallel_child_task_list := [2, 3], operator_type := .JOIN_ALL,
    kind := .parallelComposite }

/-- First child, COMPLETED. -/
def c6ac1 : Task := { id := 2, status := .COMPLETED, kind := .executor none }

/-- Second child, still EXECUTING. -/
def c6ac2 : Task := { id := 3, status := .EXECUTING, kind := .executor none }

/-- Workflow for the C6 witness. -/
def c6aw : Workflow :=
  { selfTask := { id := 0, task_type := .ROOT, kind := .nonLeaf },
    tasks := [(1, c6aP), (2, c6ac1), (3, c6ac2)] }

/-- Witness for C6 (amended): with one child non-terminal under JOIN_ALL,
notify completes the parent iff every child is terminal — which fails
here, and indeed no `on_complete` entry is produced. -/
theorem c6_join_semantics_amended_witness :
    Ev.onCompleteEntered c6aP.id .COMPLETED true ∈
        (run (0 + 3) 100 c6aw (.notify c6aP.id .COMPLETED)).evs ↔
      ((c6aP.operator_type = .JOIN_ALL ∧
          ∀ c ∈ c6aP.parallel_child_task_list, childTerminalP c6aw c) ∨
        (c6aP.operator_type = .ATLEAST_ONE ∧
          ∃ c ∈ c6aP.parallel_child_task_list, childTerminalP c6aw c)) :=
  c6_join_semantics_amended 0 100 c6aw c6aP .COMPLETED (by decide) rfl (by decide)
    (by decide)

end C6Amended

section C9Idempotent

/-- C9: on a parallel composite parent (with no successors and no parent of
its own) whose listed children are all already terminal, calling
`notify` twice with the same terminal status produces at most one
`on_complete` entry across both calls: the first call (at most) completes
the parent and sets its status to the incoming one, so the second call
fails the `self.status.code != status.code` guard and is a no-op. -/
theorem c9_notify_idempotent (f : Nat) (now : Int) (w : Workflow) (P : Task)
    (s : TaskStatusEnum)
    (hP : w.get_task P.id = some P) (hk : P.kind = .parallelComposite)
    (hterm : s ∈ TERMINAL_STATUSES)
    (hchild : ∀ c ∈ P.parallel_child_task_list, childTerminalP w c)
    (hnd : P.next_dags = []) (hpar : P.parent_id = none) (hty : P.task_type ≠ .ROOT) :
    countOnComplete P.id (run (f + 4) now w (.notify P.id s)).evs +
      countOnComplete P.id
        (run (f + 4) now (run (f + 4) now w (.notify P.id s)).w (.notify P.id s)).evs ≤ 1 := by
  by_cases h0 : P.status = s
  · have n1 : ∀ g, run (g + 1) now w (.notify P.id s) = ⟨w, [.notifyCalled P.id s], none⟩ := by
      intro g
      simp only [run, hP, hk]
      rw [if_neg (not_not_intro h0)]
      rfl
    have e1 : f + 4 = (f + 3) + 1 := rfl
    rw [e1, n1 (f + 3)]
    rw [show (⟨w, [.notifyCalled P.id s], none⟩ : Out).w = w from rfl, n1 (f + 3)]
    simp [countOnComplete, isOnCompleteEnteredFor]
  · have hflags : parallelScan w P.operator_type P.parallel_child_task_list false true =
        (false || !P.parallel_child_task_list.isEmpty, true) :=
      parallelScan_all_terminal w _ _ false true hchild
    by_cases hcond :
        (P.operator_type = .JOIN_ALL ∧
          (parallelScan w P.operator_type P.parallel_child_task_list false true).2 = true) ∨
        (P.operator_type = .ATLEAST_ONE ∧
          (parallelScan w P.operator_type P.parallel_child_task_list false true).1 = true)
    · -- the first notify completes the parent
      have s1 : ∀ g, run (g + 1) now w (.notify P.id s) =
          Out.withEvents [.notifyCalled P.id s] (run g now w (.onComplete P.id s true)) := by
        intro g
        simp only [run, hP, hk]
        rw [if_pos h0, if_pos hcond]
      have s2 : ∀ g, run (g + 1) now w (.onComplete P.id s true) =
          run g now w (.itaskOnComplete P.id s true) := by
        intro g
        simp only [run, hP, hk]
      have hiso := itaskOnComplete_isolated f now w P s hP hnd hpar hty
      rw [if_neg h0] at hiso
      have e1 : f + 4 = (f + 3) + 1 := rfl
      have e2 : f + 3 = (f + 2) + 1 := rfl
      have e3 : f + 2 = f + 2 := rfl
      have hrun1 : run (f + 4) now w (.notify P.id s) =
          ⟨(w.set_task (completedTask P s now)),
            [.notifyCalled P.id s, .onCompleteEntered P.id s true, .updateInstance], none⟩ := by
        rw [e1, s1 (f + 3), e2, s2 (f + 2), hiso]
        rfl
      have hread : (w.set_task (completedTask P s now)).get_task P.id =
          some (completedTask P s now) := by
        refine get_task_set_task_self w _ P.id (by simp [completedTask]) (by simp [hP])
      have n2 : ∀ g, run (g + 1) now (w.set_task (completedTask P s now)) (.notify P.id s) =
          ⟨(w.set_task (completedTask P s now)), [.notifyCalled P.id s], none⟩ := by
        intro g
        simp only [run, hread]
        have hk' : (completedTask P s now).kind = TaskKind.parallelComposite := by
          simpa [completedTask] using hk
        simp only [hk']
        rw [if_neg (not_not_intro (by simp [completedTask]))]
        rfl
      rw [hrun1]
      rw [show (⟨(w.set_task (completedTask P s now)),
            [.notifyCalled P.id s, .onCompleteEntered P.id s true, .updateInstance], none⟩ : Out).w
          = w.set_task (completedTask P s now) from rfl]
      rw [show f + 4 = (f + 3) + 1 from rfl, n2 (f + 3)]
      simp [countOnComplete, isOnCompleteEnteredFor]
    · -- ATLEAST_ONE with no children: the scan never completes the parent
      have n1 : ∀ g, run (g + 1) now w (.notify P.id s) = ⟨w, [.notifyCalled P.id s], none⟩ := by
        intro g
        simp only [run, hP, hk]
        rw [if_pos h0, if_neg hcond]
        rfl
      have e1 : f + 4 = (f + 3) + 1 := rfl
      rw [e1, n1 (f + 3)]
      rw [show (⟨w, [.notifyCalled P.id s], none⟩ : Out).w = w from rfl, n1 (f + 3)]
      simp [countOnComplete, isOnCompleteEnteredFor]

/-- Parent for the C9 witness: EXECUTING, ATLEAST_ONE, both children
terminal. -/
def c9P : Task :=
  { id := 1, status := .EXECUTING, task_type := .PARALLEL_COMPOSITE,
    parallel_child_task_list := [2, 3], operator_type := .ATLEAST_ONE,
    kind := .parallelComposite }

/-- First child, COMPLETED. -/
def c9c1 : Task := { id := 2, status := .COMPLETED, kind := .executor none }

/-- Second child, FAILURE (also terminal). -/
def c9c2 : Task := { id := 3, status := .FAILURE, kind := .executor none }

/-- Workflow for the C9 witness. -/
def c9w : Workflow :=
  { selfTask := { id := 0, task_type := .ROOT, kind := .nonLeaf },
    tasks := [(1, c9P), (2, c9c1), (3, c9c2)] }

/-- Witness for C9 at a concrete composite with terminal children: two
back-to-back notifies yield at most one `on_complete`. -/
theorem c9_notify_idempotent_witness :
    countOnComplete c9P.id (run (0 + 4) 100 c9w (.notify c9P.id .COMPLETED)).evs +
      countOnComplete c9P.id
        (run (0 + 4) 100 (run (0 + 4) 100 c9w (.notify c9P.id .COMPLETED)).w
          (.notify c9P.id .COMPLETED)).evs ≤ 1 :=
  c9_notify_idempotent 0 100 c9w c9P .COMPLETED (by decide) rfl (by decide) (by decide)
    rfl rfl (by decide)

end C9Idempotent

section C1Amended

/-- The successor loop of `ITask.on_complete` over ids none of which resolve:
each is logged as missing and the loop falls through to the after-loop
logic with `next_task_submitted` unchanged. -/
theorem nextLoop_all_missing (now : Int) (sid : Nat) (status : TaskStatusEnum)
    (m : Nat) (w : Workflow) (sub : Bool) (nds : List Nat)
    (h : ∀ n ∈ nds, w.get_task n = none) :
    run (nds.length + m) now w (.nextLoop sid status nds sub) =
      Out.withEvents (nds.map (fun n => Ev.missingTask (some n)))
        (run m now w (.nextLoop sid status [] sub)) := by
  induction nds with
  | nil => simp [Out.withEvents]
  | cons n rest ih =>
    have hn : w.get_task n = none := h n (by simp)
    have hrest : ∀ x ∈ rest, w.get_task x = none := fun x hx => h x (by simp [hx])
    have e1 : (n :: rest).length + m = (rest.length + m) + 1 := by
      simp [List.length_cons]
      omega
    rw [e1]
    simp only [run, hn]
    rw [ih hrest, withEvents_withEvents]
    simp

/-- C1 (amended): when `on_complete(status, iterate=true)` runs on a task
with a parent, the upward propagation of line 246 — copying the task's
(freshly stamped) `time_completed` onto the parent and invoking the
parent's `notify(status)` — happens exactly when no id of `next_dags`
resolves to a task of the workflow (first conjunct: all successors
missing); a successor that resolves sets `next_task_submitted` even when it
is SKIPPED and so suppresses the propagation (the counterexample); and when
the first resolvable successor is not SKIPPED it is started and
`on_complete` returns without notifying the parent (second conjunct: the
whole trace is the status update followed by that one `start`). -/
theorem c1_parent_propagation_amended (f : Nat) (now : Int) (w : Workflow)
    (t parent : Task) (pid : Nat) (status : TaskStatusEnum) (e : Option TaskStatusEnum)
    (ht : w.get_task t.id = some t) (hk : t.kind = .executor e)
    (hch : t.status ≠ status)
    (hpid : t.parent_id = some pid) (hpne : pid ≠ t.id)
    (hparent : w.get_task pid = some parent) (hparid : parent.id = pid)
    (hpk : parent.kind = .nonLeaf) (hps : parent.status = status) :
    ((∀ n ∈ t.next_dags, w.get_task n = none) →
      (Ev.notifyCalled pid status ∈
          (run (t.next_dags.length + f + 4) now w (.onComplete t.id status true)).evs ∧
        ((run (t.next_dags.length + f + 4) now w
              (.onComplete t.id status true)).w.get_task pid).map Task.time_completed =
          some (if t.time_completed > 0 then t.time_completed else now))) ∧
    (∀ sn b, t.next_dags = [sn.id] → w.get_task sn.id = some sn →
      sn.kind = .sensor b → sn.status = .EXECUTING →
      (run (t.next_dags.length + f + 4) now w (.onComplete t.id status true)).evs =
        [.onCompleteEntered t.id status true, .updateInstance, .startCalled sn.id]) := by
  have sA : ∀ g, run (g + 1) now w (.onComplete t.id status true) =
      run g now w (.itaskOnComplete t.id status true) := by
    intro g
    simp only [run, ht, hk]
  have sB : ∀ g, run (g + 1) now w (.itaskOnComplete t.id status true) =
      Out.withEvents [.onCompleteEntered t.id status true]
        ((Out.mk (w.set_task (completedTask t status now)) [.updateInstance] none).andThen
          (fun w1 => run g now w1 (.nextLoop t.id status t.next_dags false))) := by
    intro g
    simp only [run, ht]
    rw [if_pos hch]
    rfl
  have hread1 : (w.set_task (completedTask t status now)).get_task t.id =
      some (completedTask t status now) :=
    get_task_set_task_self w _ t.id (by simp [completedTask]) (by simp [ht])
  have hparent1 : (w.set_task (completedTask t status now)).get_task pid = some parent := by
    rw [get_task_set_task_other _ _ _ (by simp [completedTask, hpne])]
    exact hparent
  constructor
  · intro hmiss
    have hmiss1 : ∀ n ∈ t.next_dags,
        (w.set_task (completedTask t status now)).get_task n = none := by
      intro n hn
      have h0 := hmiss n hn
      have hne : n ≠ t.id := by
        intro hc
        rw [hc, ht] at h0
        exact Option.noConfusion h0
      rw [get_task_set_task_other _ _ _ (by simp [completedTask, hne])]
      exact h0
    have sD : run (f + 2) now (w.set_task (completedTask t status now))
        (.nextLoop t.id status [] false) =
        run (f + 1) now
          ((w.set_task (completedTask t status now)).set_task
            { parent with time_completed := (completedTask t status now).time_completed })
          (.notify pid status) := by
      have hp1 : (completedTask t status now).parent_id = some pid := by
        simp [completedTask, hpid]
      simp only [run, hread1, hp1, hparent1]
      rfl
    have hw2read : ((w.set_task (completedTask t status now)).set_task
          { parent with time_completed := (completedTask t status now).time_completed
          }).get_task pid =
        some { parent with time_completed := (completedTask t status now).time_completed } :=
      get_task_set_task_self _ _ pid (by simp [hparid]) (by simp [hparent1])
    have sE : run (f + 1) now
        ((w.set_task (completedTask t status now)).set_task
          { parent with time_completed := (completedTask t status now).time_completed })
        (.notify pid status) =
        ⟨(w.set_task (completedTask t status now)).set_task
          { parent with time_completed := (completedTask t status now).time_completed },
          [.notifyCalled pid status], none⟩ := by
      simp only [run, hw2read]
      simp [hpk, hps, Out.withEvents]
    have e1 : t.next_dags.length + f + 4 = (t.next_dags.length + f + 3) + 1 := rfl
    have e2 : t.next_dags.length + f + 3 = (t.next_dags.length + f + 2) + 1 := rfl
    have e3 : t.next_dags.length + f + 2 = t.next_dags.length + (f + 2) := by omega
    have hfull : run (t.next_dags.length + f + 4) now w (.onComplete t.id status true) =
        ⟨(w.set_task (completedTask t status now)).set_task
            { parent with time_completed := (completedTask t status now).time_completed },
          .onCompleteEntered t.id status true :: .updateInstance ::
            (t.next_dags.map (fun n => Ev.missingTask (some n)) ++ [.notifyCalled pid status]),
          none⟩ := by
      rw [e1, sA, e2, sB]
      simp only [Out.andThen]
      rw [e3]
      rw [nextLoop_all_missing now t.id status (f + 2) _ false t.next_dags hmiss1]
      rw [sD, sE]
      simp [Out.withEvents]
    rw [hfull]
    constructor
    · simp
    · simp only [hw2read]
      simp [completedTask]
  · intro sn b hnd hsn hsk hse
    have hsne : sn.id ≠ t.id := by
      intro hc
      rw [hc, ht] at hsn
      cases hsn
      rw [hk] at hsk
      exact TaskKind.noConfusion hsk
    have hsn1 : (w.set_task (completedTask t status now)).get_task sn.id = some sn := by
      rw [get_task_set_task_other _ _ _ (by simp [completedTask, hsne])]
      exact hsn
    have sD2 : run (f + 3) now (w.set_task (completedTask t status now))
        (.nextLoop t.id status [sn.id] false) =
        run (f + 2) now (w.set_task (completedTask t status now)) (.start sn.id false) := by
      simp only [run, hsn1]
      rw [if_neg (by simp [hse])]
    have sE2 : run (f + 2) now (w.set_task (completedTask t status now))
        (.start sn.id false) =
        ⟨w.set_task (completedTask t status now), [.startCalled sn.id], none⟩ := by
      simp only [run, hsn1, hsk]
      rw [if_neg (by simp [hse]), if_neg (by simp [hse])]
      rfl
    have e1 : t.next_dags.length + f + 4 = (t.next_dags.length + f + 3) + 1 := rfl
    have e2 : t.next_dags.length + f + 3 = (t.next_dags.length + f + 2) + 1 := rfl
    rw [e1, sA, e2, sB]
    simp only [Out.andThen]
    rw [hnd]
    have e3 : ([sn.id] : List Nat).length + f + 2 = f + 3 := by
      simp
      omega
    rw [e3, sD2, sE2]
    simp [Out.withEvents]

/-- Task for the C1 witness: EXECUTING executor whose only successor id (9)
is absent from the workflow, with parent id 2. -/
def c1at : Task :=
  { id := 1, parent_id := some 2, next_dags := [9], status := .EXECUTING,
    kind := .executor none }

/-- Parent for the C1 witness, already COMPLETED so its notify is the
final step. -/
def c1ap : Task := { id := 2, task_type := .SUB_DAG, status := .COMPLETED, kind := .nonLeaf }

/-- Workflow for the C1 witness. -/
def c1aw : Workflow :=
  { selfTask := { id := 0, task_type := .ROOT, kind := .nonLeaf },
    tasks := [(1, c1at), (2, c1ap)] }

/-- Witness for C1 (amended) at a task whose only listed successor is
missing: the parent is notified and receives the task's stamped
`time_completed`. -/
theorem c1_parent_propagation_amended_witness :
    ((∀ n ∈ c1at.next_dags, c1aw.get_task n = none) →
      (Ev.notifyCalled 2 .COMPLETED ∈
          (run (c1at.next_dags.length + 0 + 4) 100 c1aw
            (.onComplete c1at.id .COMPLETED true)).evs ∧
        ((run (c1at.next_dags.length + 0 + 4) 100 c1aw
              (.onComplete c1at.id .COMPLETED true)).w.get_task 2).map
            Task.time_completed =
          some (if c1at.time_completed > 0 then c1at.time_completed else 100))) ∧
    (∀ sn b, c1at.next_dags = [sn.id] → c1aw.get_task sn.id = some sn →
      sn.kind = .sensor b → sn.status = .EXECUTING →
      (run (c1at.next_dags.length + 0 + 4) 100 c1aw
          (.onComplete c1at.id .COMPLETED true)).evs =
        [.onCompleteEntered c1at.id .COMPLETED true, .updateInstance,
          .startCalled sn.id]) :=
  c1_parent_propagation_amended 0 100 c1aw c1at c1ap 2 .COMPLETED none (by decide) rfl
    (by decide) rfl (by decide) (by decide) rfl rfl rfl

end C1Amended

section C8Amended

/-- When the head pair's processing `break`s, the rest of the yield loop is
never visited: the loop's outcome equals the loop over the head alone. -/
theorem pairsLoop_break_head (fuel : Nat) (now : Int) (ag : Agent) (st : Store)
    (pr : Bool) (wfid tid : Nat) (rest : List (Nat × Nat))
    (hb : (processPair fuel now ag st wfid tid).broke = true) :
    pairsLoop fuel now ag st pr ((wfid, tid) :: rest) =
      pairsLoop fuel now ag st pr [(wfid, tid)] := by
  cases herr : (processPair fuel now ag st wfid tid).err with
  | some e => simp [pairsLoop, herr]
  | none => simp [pairsLoop, herr, hb]

/-- C8 (amended): `match_only_one` stops the current correlation lookup's
iteration only when a task is processed through the `on_message` delivery
branch (here: an EXECUTING sensor bound to the agent's topic whose
`on_message` does not complete it); then the `break` of line 815 makes the
whole loop equal to the loop over just that first pair, so no later pair of
that lookup is visited.  A task handled through the COMPLETED branch sets
`processed_task` but `continue`s past the `break` (the counterexample), and
later candidate mappings of the outer loop are still looked up. -/
theorem c8_match_only_one_amended (fuel : Nat) (now : Int) (ag : Agent) (st : Store)
    (wfid tid : Nat) (rest : List (Nat × Nat)) (pr : Bool) (w : Workflow) (t : Task)
    (hw : Store.getWf st wfid = some w) (ht : w.get_task tid = some t)
    (htp : t.topic = some ag.topicName) (hst : t.status = .EXECUTING)
    (hk : t.kind = .sensor false) (hmoo : ag.matchOnlyOne = true) :
    (processPair fuel now ag st wfid tid).broke = true ∧
    pairsLoop fuel now ag st pr ((wfid, tid) :: rest) =
      pairsLoop fuel now ag st pr [(wfid, tid)] := by
  have hb : (processPair fuel now ag st wfid tid).broke = true := by
    simp [processPair, processResolved, onMessageResult, pairCatch, hw, ht, htp, hst,
      hk, hmoo]
  exact ⟨hb, pairsLoop_break_head fuel now ag st pr wfid tid rest hb⟩

/-- Witness for C8 (amended): with the EXECUTING sensor pair first, the
second pair is never visited. -/
theorem c8_match_only_one_amended_witness :
    (processPair 30 100 c8ag c8st 0 2).broke = true ∧
    pairsLoop 30 100 c8ag c8st false [(0, 2), (0, 1)] =
      pairsLoop 30 100 c8ag c8st false [(0, 2)] :=
  c8_match_only_one_amended 30 100 c8ag c8st 0 2 [(0, 1)] false c8w c8t2 (by decide)
    (by decide) rfl rfl rfl rfl

end C8Amended

end Dagger
